import Mathlib

/-!
Shallow embedding of the dockward deploy guardian (Go) for checking its
natural-language specification. The definitions below are translated from
the repository sources: internal/watcher/healer.go, internal/watcher/updater.go,
internal/watcher/metrics.go, internal/docker/containers.go, the docker image
and event files, and the watcher HTTP API file. State-mutating Go methods
become pure functions returning a new state together with an ordered trace
of observable effects (metric writes, alerts, docker and compose calls).
External calls (docker inspect, restart, compose) are abstracted as oracle
inputs carried in small environment records.
-/

namespace Dockward

/-- Severity of an Alert, from internal/notify. -/
inductive Level where
  | info
  | warning
  | critical
deriving DecidableEq

/-- Alert value sent to notifiers, from internal/notify (notify.Alert). -/
structure Alert where
  service : String := ""
  event : String := ""
  message : String := ""
  reason : String := ""
  oldDigest : String := ""
  newDigest : String := ""
  container : String := ""
  level : Level := Level.info
deriving DecidableEq

/-- A watched service, from internal/config (config.Service). -/
structure Service where
  name : String := ""
  image : String := ""
  composeFile : String := ""
  composeProject : String := ""
  containerName : String := ""
  autoUpdate : Bool := false
  autoHeal : Bool := false
  healthGrace : Nat := 0
  healCooldown : Nat := 0
  healMaxRestarts : Nat := 0
deriving DecidableEq

/-- A single health check result, from internal/docker (docker.HealthLog). -/
structure HealthLog where
  exitCode : Int := 0
  output : String := ""
deriving DecidableEq

/-- Container health check status, from internal/docker (docker.HealthState). -/
structure HealthState where
  status : String := ""
  log : List HealthLog := []
deriving DecidableEq

/-- Container runtime state, from internal/docker (docker.ContainerState). -/
structure ContainerState where
  running : Bool := false
  health : Option HealthState := none
deriving DecidableEq

/-- Full container detail, from internal/docker (docker.ContainerInspect). -/
structure ContainerInspect where
  id : String := ""
  name : String := ""
  image : String := ""
  state : ContainerState := {}
deriving DecidableEq

/-- LastHealthOutput from containers.go: output of the most recent health
check log entry, or the empty string when there is no health state or log. -/
def ContainerInspect.lastHealthOutput (ci : ContainerInspect) : String :=
  match ci.state.health with
  | none => ""
  | some h =>
    match h.log.getLast? with
    | none => ""
    | some l => l.output

/-- ContainerName from containers.go: the name without the leading slash. -/
def ContainerInspect.cleanName (ci : ContainerInspect) : String :=
  match ci.name.data with
  | '/' :: rest => String.mk rest
  | _ => ci.name

/-- Image details, from the docker image file (docker.ImageInspect). -/
structure ImageInspect where
  id : String := ""
  repoDigests : List String := []
deriving DecidableEq

/-- HasPrefix as in the Go standard library, on character lists so that
every proof can evaluate it. -/
def listIsPre : List Char → List Char → Bool
  | [], _ => true
  | _ :: _, [] => false
  | a :: as, b :: bs => a = b && listIsPre as bs

/-- HasPrefix as in the Go standard library. -/
def strIsPre (p s : String) : Bool :=
  listIsPre p.data s.data

/-- Split a character list on a separator character. -/
def splitOnCharAux (sep : Char) : List Char → List Char → List (List Char)
  | [], acc => [acc.reverse]
  | c :: cs, acc =>
    if c = sep then acc.reverse :: splitOnCharAux sep cs []
    else splitOnCharAux sep cs (c :: acc)

/-- Split a string on a separator character. -/
def splitOnChar (sep : Char) (s : String) : List String :=
  (splitOnCharAux sep s.data []).map String.mk

/-- Join strings with a separator. -/
def joinWith (sep : String) : List String → String
  | [] => ""
  | [x] => x
  | x :: y :: ys => x ++ sep ++ joinWith sep (y :: ys)

/-- The part of a repo digest after the first at-sign, or none when the
string has no at-sign. Mirrors the Go idiom d[idx+1:] for idx the result
of strings.Index(d, the at-sign). -/
def afterFirstAt (d : String) : Option String :=
  match splitOnChar '@' d with
  | [] => none
  | [_] => none
  | _ :: rest => some (joinWith "@" rest)

/-- LocalDigest from the docker image file: scan repoDigests for the first
entry that starts with the registry prefix and contains an at-sign, and
return the digest part after the at-sign; otherwise the empty string. -/
def ImageInspect.localDigest (img : ImageInspect) (regPre : String) : String :=
  go img.repoDigests
where
  go : List String → String
  | [] => ""
  | d :: rest =>
    if strIsPre regPre d then
      match afterFirstAt d with
      | some s => s
      | none => go rest
    else go rest

/-- A docker engine event, from the docker events file (docker.Event).
Actor attributes are modelled with Go map read semantics: a missing key
reads as the empty string. -/
structure EventActor where
  id : String := ""
  attributes : String → String := fun _ => ""

/-- A docker engine event from the event stream. -/
structure Event where
  type : String := ""
  action : String := ""
  actor : EventActor := {}

/-- ContainerName from the docker events file: the name event attribute. -/
def Event.containerName (e : Event) : String := e.actor.attributes "name"

/-- Observable effects of the watcher, in program order: metric writes,
alerts, docker mutations, compose invocations, and writes to the blocked
and notFound maps (recorded in the trace because the spec constrains their
ordering relative to alerts). -/
inductive Effect where
  | setHealthy (service : String) (value : Bool)
  | setBlockedGauge (service : String) (value : Bool)
  | incUpdates (service : String)
  | incRollbacks (service : String)
  | incRestarts (service : String)
  | incFailures (service : String)
  | alert (a : Alert)
  | restartContainer (id : String) (timeoutSec : Nat)
  | composePull (file : String) (project : String)
  | composeUp (file : String) (project : String)
  | tagImage (src : String) (repo : String) (tag : String)
  | removeImage (name : String)
  | blockedMapSet (service : String) (digest : String)
  | blockedMapClear (service : String)
  | notFoundMapSet (service : String) (digest : String)
  | notFoundMapClear (service : String)
  | deployCall (service : String) (oldDigest : String) (newDigest : String)
deriving DecidableEq

/-- True for alert effects. -/
def Effect.isAlert : Effect → Bool
  | Effect.alert _ => true
  | _ => false

/-- True for metric counter and gauge writes. -/
def Effect.isMetricWrite : Effect → Bool
  | Effect.setHealthy _ _ => true
  | Effect.setBlockedGauge _ _ => true
  | Effect.incUpdates _ => true
  | Effect.incRollbacks _ => true
  | Effect.incRestarts _ => true
  | Effect.incFailures _ => true
  | _ => false

/-- True for container restart calls. -/
def Effect.isRestartCall : Effect → Bool
  | Effect.restartContainer _ _ => true
  | _ => false

/-- Healer state, from healer.go: cooldown deadlines per container name,
the degraded set and consecutive failed-restart counts per service name.
Reads follow Go map semantics (degraded and restartCounts read their zero
value on a missing key; cooldowns presence is observable). -/
structure HealerState where
  cooldowns : String → Option Nat
  degraded : String → Bool
  restartCounts : String → Nat

/-- Fresh healer state as built by NewHealer: all maps empty. -/
def initHealerState : HealerState :=
  { cooldowns := fun _ => none, degraded := fun _ => false, restartCounts := fun _ => 0 }

/-- Oracle inputs for one healer event: the updater deploying flag for the
matched service, the container inspect result, the restart call result and
the current instant. -/
structure HealerEnv where
  isDeploying : Bool := false
  inspect : Option ContainerInspect := none
  restartOk : Bool := true
  now : Nat := 0

/-- inCooldown from healer.go: a container is in cooldown when its entry
exists and the current instant is before the recorded deadline. -/
def inCooldown (st : HealerState) (now : Nat) (containerName : String) : Bool :=
  match st.cooldowns containerName with
  | none => false
  | some deadline => now < deadline

/-- handleUnhealthy from healer.go. Returns the new state, the effect
trace, and whether a verify-after-restart task was spawned. -/
def handleUnhealthy (env : HealerEnv) (st : HealerState) (svc : Service)
    (containerName containerID : String) : HealerState × List Effect × Bool :=
  if env.isDeploying then (st, [], false)
  else
    let reason :=
      match env.inspect with
      | some info => info.lastHealthOutput
      | none => ""
    let st1 := { st with degraded := fun s => if s = svc.name then true else st.degraded s }
    let effs := [Effect.setHealthy svc.name false]
    if !svc.autoHeal then
      (st1, effs ++ [Effect.alert { service := svc.name, event := "unhealthy", message := "Container is unhealthy.", reason := reason, container := containerName, level := Level.warning }], false)
    else if svc.healMaxRestarts ≤ st.restartCounts svc.name then
      (st1, effs, false)
    else if inCooldown st1 env.now containerName then
      (st1, effs, false)
    else
      let effs2 := effs ++ [Effect.restartContainer containerID 10]
      if !env.restartOk then
        (st1, effs2 ++ [Effect.incFailures svc.name,
          Effect.alert { service := svc.name, event := "critical", message := "Failed to restart unhealthy container.", reason := reason, container := containerName, level := Level.critical }], false)
      else
        ({ st1 with cooldowns := fun c => if c = containerName then some (env.now + svc.healCooldown) else st1.cooldowns c },
         effs2, true)

/-- verifyAfterRestart from healer.go: after the 30 second sleep, inspect
the container; if still unhealthy, count the failed restart and alert at
critical level, otherwise record a successful restart. -/
def verifyAfterRestart (env : HealerEnv) (st : HealerState) (svc : Service)
    (containerName _containerID reason : String) : HealerState × List Effect :=
  match env.inspect with
  | none => (st, [])
  | some info =>
    let stillUnhealthy : Bool :=
      match info.state.health with
      | some h => h.status = "unhealthy"
      | none => false
    if stillUnhealthy then
      let newCount := st.restartCounts svc.name + 1
      let st1 := { st with restartCounts := fun s => if s = svc.name then newCount else st.restartCounts s }
      if svc.healMaxRestarts ≤ newCount then
        (st1, [Effect.incFailures svc.name,
          Effect.alert { service := svc.name, event := "critical", message := "Giving up after " ++ toString newCount ++ " consecutive failed restarts. Manual intervention required.", reason := info.lastHealthOutput, container := containerName, level := Level.critical }])
      else
        (st1, [Effect.incFailures svc.name,
          Effect.alert { service := svc.name, event := "critical", message := "Container still unhealthy after restart (attempt " ++ toString newCount ++ "/" ++ toString svc.healMaxRestarts ++ ").", reason := info.lastHealthOutput, container := containerName, level := Level.critical }])
    else
      (st, [Effect.incRestarts svc.name, Effect.setHealthy svc.name true,
        Effect.alert { service := svc.name, event := "restarted", message := "Restarted unhealthy container successfully.", reason := reason, container := containerName, level := Level.warning }])

/-- handleHealthy from healer.go: drop the event unless the container has a
cooldown entry or the service is degraded; otherwise take the recovery
branch. Note the code consults only key presence in cooldowns, never the
deadline, and never consults the updater deploying flag. -/
def handleHealthy (st : HealerState) (svc : Service) (containerName : String) :
    HealerState × List Effect :=
  let wasCooling := (st.cooldowns containerName).isSome
  let wasDegraded := st.degraded svc.name
  if !wasCooling && !wasDegraded then (st, [])
  else
    ({ st with degraded := fun s => if s = svc.name then false else st.degraded s, restartCounts := fun s => if s = svc.name then 0 else st.restartCounts s },
     [Effect.setHealthy svc.name true,
      Effect.alert { service := svc.name, event := "healthy", message := "Container recovered and is healthy.", container := containerName, level := Level.info }])

/-- handleDied from healer.go: drop during deploy, otherwise mark the
service degraded and alert at critical level. -/
def handleDied (isDeploying : Bool) (st : HealerState) (svc : Service)
    (containerName : String) : HealerState × List Effect :=
  if isDeploying then (st, [])
  else
    ({ st with degraded := fun s => if s = svc.name then true else st.degraded s },
     [Effect.setHealthy svc.name false,
      Effect.alert { service := svc.name, event := "died", message := "Container exited unexpectedly.", container := containerName, level := Level.critical }])

/-- findServiceByEvent from healer.go: first service whose compose project
matches the compose project label, or whose container name matches the name
attribute (empty attribute values never match). -/
def findServiceByEvent (services : List Service) (e : Event) : Option Service :=
  let project := e.actor.attributes "com.docker.compose.project"
  let name := e.actor.attributes "name"
  services.find? fun svc =>
    (project ≠ "" && svc.composeProject = project) ||
    (name ≠ "" && svc.containerName = name)

/-- handleEvent from healer.go: resolve the service, then dispatch on the
event action. Actions other than the two health_status variants and die
fall through the switch with no effect. -/
def handleEvent (env : HealerEnv) (services : List Service) (st : HealerState)
    (e : Event) : HealerState × List Effect × Bool :=
  let cn := e.containerName
  let cid := e.actor.id
  match findServiceByEvent services e with
  | none => (st, [], false)
  | some svc =>
    if strIsPre "health_status: unhealthy" e.action then
      handleUnhealthy env st svc cn cid
    else if strIsPre "health_status: healthy" e.action then
      let r := handleHealthy st svc cn
      (r.1, r.2, false)
    else if e.action = "die" then
      let r := handleDied env.isDeploying st svc cn
      (r.1, r.2, false)
    else (st, [], false)

/-- Updater state, from updater.go: the deploying, blocked and notFound
maps. Values read with Go map semantics where the code does so. -/
structure UpdaterState where
  deploying : String → Option Nat
  blocked : String → Option String
  notFound : String → Option String

/-- Fresh updater state as built by NewUpdater: all maps empty. -/
def initUpdaterState : UpdaterState :=
  { deploying := fun _ => none, blocked := fun _ => none, notFound := fun _ => none }

/-- Insert into a string-keyed map. -/
def mapSet {α : Type} (m : String → Option α) (k : String) (v : α) : String → Option α :=
  fun q => if q = k then some v else m q

/-- Delete from a string-keyed map. -/
def mapErase {α : Type} (m : String → Option α) (k : String) : String → Option α :=
  fun q => if q = k then none else m q

/-- IsDeploying from updater.go: key presence in the deploying map. -/
def isDeploying (st : UpdaterState) (service : String) : Bool :=
  (st.deploying service).isSome

/-- TrimPrefix as in the Go standard library: drop the leading pattern when
present, otherwise return the string unchanged. -/
def trimPre (p s : String) : String :=
  if strIsPre p s then String.mk (s.data.drop p.data.length) else s

/-- Drop leading slashes from a character list. -/
def dropSlashes : List Char → List Char
  | '/' :: rest => dropSlashes rest
  | l => l

/-- TrimRight with a slash cutset as in the Go standard library. -/
def trimRightSlashes (s : String) : String :=
  String.mk (dropSlashes s.data.reverse).reverse

/-- registryHost from updater.go: strip an http or https scheme and any
trailing slashes from the registry URL. -/
def registryHost (url : String) : String :=
  trimRightSlashes (trimPre "https://" (trimPre "http://" url))

/-- imageName from updater.go: everything before the last colon, or the
whole string when there is no colon. -/
def imageName (image : String) : String :=
  let parts := splitOnChar ':' image
  if parts.length ≤ 1 then image else joinWith ":" parts.dropLast

/-- imageTag from updater.go: everything after the last colon, defaulting
to latest when there is no colon. -/
def imageTag (image : String) : String :=
  let parts := splitOnChar ':' image
  if parts.length ≤ 1 then "latest" else parts.getLastD "latest"

/-- Oracle inputs for one checkAndUpdate call: results of the docker reads
made by resolveLocalDigest. An empty containerByProject models an empty or
failed ListContainersByProject result. -/
structure ResolveEnv where
  inspectImageByRef : Option ImageInspect := none
  containerByProject : String := ""
  inspectContainer : Option ContainerInspect := none
  inspectImageById : Option ImageInspect := none

/-- resolveLocalDigest from updater.go: strategy 1 inspects the image by
constructed reference and scans its repo digests; strategy 2 falls back to
the running container found by compose project label, its image ID and that
image's repo digests. Returns the empty string when both strategies fail. -/
def resolveLocalDigest (env : ResolveEnv) (regPre : String) : String :=
  let s1 :=
    match env.inspectImageByRef with
    | some img => img.localDigest regPre
    | none => ""
  if s1 ≠ "" then s1
  else if env.containerByProject = "" then ""
  else
    match env.inspectContainer with
    | none => ""
    | some _info =>
      match env.inspectImageById with
      | none => ""
      | some img => img.localDigest regPre

/-- The warning alert emitted by checkAndUpdate when local digest
resolution fails, from updater.go. -/
def notFoundAlert (service : String) : Alert :=
  { service := service, event := "not_found", message := "Image not found locally. Verify compose file image field matches registry. Suppressing until registry digest changes.", level := Level.warning }

/-- Final stage of checkAndUpdate from updater.go: resolve the local
digest; on failure record the notFound suppression and alert once; on a
digest match return; otherwise invoke deploy (recorded as a deployCall
effect). -/
def resolveStage (env : ResolveEnv) (st : UpdaterState) (acc : List Effect)
    (svc : Service) (remoteDigest regPre : String) : UpdaterState × List Effect :=
  let localDigest := resolveLocalDigest env regPre
  if localDigest = "" then
    ({ st with notFound := mapSet st.notFound svc.name remoteDigest },
     acc ++ [Effect.notFoundMapSet svc.name remoteDigest, Effect.alert (notFoundAlert svc.name)])
  else if localDigest = remoteDigest then (st, acc)
  else (st, acc ++ [Effect.deployCall svc.name localDigest remoteDigest])

/-- notFound consultation stage of checkAndUpdate from updater.go: skip
silently while the recorded digest still matches the remote digest; clear
the suppression and continue when it differs. -/
def notFoundStage (env : ResolveEnv) (st : UpdaterState) (acc : List Effect)
    (svc : Service) (remoteDigest regPre : String) : UpdaterState × List Effect :=
  let notFoundDigest := (st.notFound svc.name).getD ""
  if notFoundDigest ≠ "" then
    if notFoundDigest = remoteDigest then (st, acc)
    else
      resolveStage env { st with notFound := mapErase st.notFound svc.name }
        (acc ++ [Effect.notFoundMapClear svc.name]) svc remoteDigest regPre
  else resolveStage env st acc svc remoteDigest regPre

/-- checkAndUpdate from updater.go, from the point where the remote digest
has been fetched successfully: consult blocked, then notFound, then resolve
the local digest and compare. -/
def checkAndUpdate (env : ResolveEnv) (regURL : String) (st : UpdaterState)
    (svc : Service) (remoteDigest : String) : UpdaterState × List Effect :=
  let regPre := registryHost regURL ++ "/" ++ imageName svc.image
  let blockedDigest := (st.blocked svc.name).getD ""
  if blockedDigest ≠ "" then
    if blockedDigest = remoteDigest then (st, [])
    else
      notFoundStage env { st with blocked := mapErase st.blocked svc.name }
        [Effect.blockedMapClear svc.name, Effect.setBlockedGauge svc.name false]
        svc remoteDigest regPre
  else notFoundStage env st [] svc remoteDigest regPre

/-- Oracle inputs for one deploy call: compose pull and compose up results
(none for success, some message for failure). The rollback tag step has no
entry because its failure is log-and-continue. -/
structure DeployEnv where
  pullErr : Option String := none
  upErr : Option String := none

/-- deploy from updater.go: take the deploying guard, tag the rollback
image when an old digest exists, run compose pull and compose up clearing
the guard on failure, and otherwise leave the guard held for the spawned
verification task. Returns the new state, the effect trace, the returned
error, and whether verification was spawned. -/
def deploy (env : DeployEnv) (regURL : String) (st : UpdaterState) (svc : Service)
    (oldDigest _newDigest : String) (now : Nat) : UpdaterState × List Effect × Option String × Bool :=
  if (st.deploying svc.name).isSome then (st, [], none, false)
  else
    let st1 := { st with deploying := mapSet st.deploying svc.name now }
    let regPre := registryHost regURL ++ "/" ++ imageName svc.image
    let fullImage := regPre ++ ":" ++ imageTag svc.image
    let effs1 :=
      (if oldDigest ≠ "" then [Effect.tagImage fullImage regPre "rollback"] else []) ++
      [Effect.composePull svc.composeFile svc.composeProject]
    match env.pullErr with
    | some e =>
      ({ st1 with deploying := mapErase st1.deploying svc.name }, effs1,
       some ("compose pull: " ++ e), false)
    | none =>
      let effs2 := effs1 ++ [Effect.composeUp svc.composeFile svc.composeProject]
      match env.upErr with
      | some e =>
        ({ st1 with deploying := mapErase st1.deploying svc.name }, effs2,
         some ("compose up: " ++ e), false)
      | none => (st1, effs2, none, true)

/-- One observation made by a verify-after-deploy poll tick. -/
inductive Obs where
  | noContainer
  | inspectErr (msg : String)
  | inspected (info : ContainerInspect)

/-- Decision taken by one verify-after-deploy poll tick. -/
inductive VerifyDecision where
  | keepPolling
  | success (containerName : String)
  | rollbackWith (reason : String)
deriving DecidableEq

/-- One iteration of the verifyAfterDeploy loop from updater.go, given the
observation of this tick and whether the grace deadline has passed. -/
def verifyStep (obs : Obs) (afterDeadline : Bool) : VerifyDecision :=
  match obs with
  | Obs.noContainer =>
    if afterDeadline then VerifyDecision.rollbackWith "container not found after deploy"
    else VerifyDecision.keepPolling
  | Obs.inspectErr msg =>
    if afterDeadline then VerifyDecision.rollbackWith ("inspect failed: " ++ msg)
    else VerifyDecision.keepPolling
  | Obs.inspected info =>
    match info.state.health with
    | none =>
      if info.state.running then VerifyDecision.success info.cleanName
      else if afterDeadline then VerifyDecision.rollbackWith "container not running"
      else VerifyDecision.keepPolling
    | some h =>
      if h.status = "healthy" then VerifyDecision.success info.cleanName
      else if h.status = "unhealthy" then VerifyDecision.rollbackWith info.lastHealthOutput
      else if afterDeadline then VerifyDecision.rollbackWith info.lastHealthOutput
      else VerifyDecision.keepPolling

/-- Oracle inputs for one rollback call: tag and compose up results. -/
structure RollbackEnv where
  tagOk : Bool := true
  upOk : Bool := true

/-- rollback from updater.go: count the rollback, block the new digest,
retag the rollback image as the configured tag, redeploy via compose, and
alert; failures of the two recovery steps alert at critical level. -/
def rollback (env : RollbackEnv) (st : UpdaterState) (svc : Service)
    (oldDigest newDigest _fullImage regPre reason : String) : UpdaterState × List Effect :=
  let st1 := { st with blocked := mapSet st.blocked svc.name newDigest }
  let effs1 := [Effect.incRollbacks svc.name, Effect.setHealthy svc.name false,
    Effect.blockedMapSet svc.name newDigest, Effect.setBlockedGauge svc.name true]
  let rollbackImage := regPre ++ ":rollback"
  let tag := imageTag svc.image
  if !env.tagOk then
    (st1, effs1 ++ [Effect.tagImage rollbackImage regPre tag, Effect.incFailures svc.name,
      Effect.alert { service := svc.name, event := "rolled_back", message := "Rollback failed: could not retag image.", reason := reason, oldDigest := oldDigest, newDigest := newDigest, level := Level.critical }])
  else
    let effs2 := effs1 ++ [Effect.tagImage rollbackImage regPre tag,
      Effect.composeUp svc.composeFile svc.composeProject]
    if !env.upOk then
      (st1, effs2 ++ [Effect.incFailures svc.name,
        Effect.alert { service := svc.name, event := "rolled_back", message := "Rollback compose up failed.", reason := reason, oldDigest := oldDigest, newDigest := newDigest, level := Level.critical }])
    else
      (st1, effs2 ++ [Effect.alert { service := svc.name, event := "rolled_back", message := "Rolled back to previous image.", reason := reason, oldDigest := oldDigest, newDigest := newDigest, level := Level.warning },
        Effect.removeImage (regPre ++ ":rollback")])

/-- Scanner deciding whether a blockedMapSet for the given service and
digest occurs in the trace before any rolled_back alert. Returns true when
the trace has no rolled_back alert at all. -/
def blockedSetBeforeRolledBack (service digest : String) : List Effect → Bool
  | [] => true
  | Effect.blockedMapSet s d :: rest =>
    if s = service ∧ d = digest then true else blockedSetBeforeRolledBack service digest rest
  | Effect.alert a :: rest =>
    if a.event = "rolled_back" then false else blockedSetBeforeRolledBack service digest rest
  | _ :: rest => blockedSetBeforeRolledBack service digest rest

/-- Handlers registered on the HTTP mux by NewAPI in the watcher API file.
Exactly six patterns are registered: /trigger, /trigger/, /blocked,
/blocked/, /health and /metrics. -/
inductive Route where
  | triggerAll
  | triggerService
  | listBlocked
  | unblockService
  | health
  | metrics
deriving DecidableEq

/-- Route resolution of the Go http.ServeMux for the six registered
patterns: patterns without a trailing slash match exactly, patterns with a
trailing slash match every path they begin. A path matching none of them
gets the mux default of 404. -/
def muxResolve (path : String) : Option Route :=
  if path = "/trigger" then some Route.triggerAll
  else if strIsPre "/trigger/" path then some Route.triggerService
  else if path = "/blocked" then some Route.listBlocked
  else if strIsPre "/blocked/" path then some Route.unblockService
  else if path = "/health" then some Route.health
  else if path = "/metrics" then some Route.metrics
  else none

/-- The documented HTTP method of each endpoint, from the spec and the
handler comments in the watcher API file. -/
def routeMethod : Route → String
  | Route.triggerAll => "POST"
  | Route.triggerService => "POST"
  | Route.listBlocked => "GET"
  | Route.unblockService => "DELETE"
  | Route.health => "GET"
  | Route.metrics => "GET"

/-- HTTP status returned by the watcher API, from the handlers in the
watcher API file. The trigger and blocked handlers gate on the method and
then on the name segment; all writeJSON paths respond 200. handleHealth and
handleMetrics ignore the request entirely and respond 200. -/
def apiStatus (services : List Service) (st : UpdaterState) (method path : String) : Nat :=
  match muxResolve path with
  | none => 404
  | some Route.triggerAll => if method ≠ "POST" then 405 else 200
  | some Route.triggerService =>
    if method ≠ "POST" then 405
    else
      let serviceName := trimPre "/trigger/" path
      if serviceName = "" then 400
      else
        match services.find? (fun svc => svc.name = serviceName) with
        | none => 404
        | some svc =>
          if !svc.autoUpdate then 200
          else if isDeploying st serviceName then 200
          else 200
  | some Route.listBlocked => if method ≠ "GET" then 405 else 200
  | some Route.unblockService =>
    if method ≠ "DELETE" then 405
    else
      let serviceName := trimPre "/blocked/" path
      if serviceName = "" then 400 else 200
  | some Route.health => 200
  | some Route.metrics => 200

/-! Concrete fixtures used by witnesses and counterexamples. -/

/-- A configured service used by the concrete scenarios. -/
def svcWeb : Service :=
  { name := "web", image := "web:latest", composeFile := "dc.yml",
    composeProject := "webproj", autoUpdate := true, autoHeal := true,
    healthGrace := 60, healCooldown := 300, healMaxRestarts := 3 }

/-- Healer state in which container web-1 has a cooldown entry. -/
def healerStCooling : HealerState :=
  { cooldowns := fun c => if c = "web-1" then some 100 else none,
    degraded := fun _ => false, restartCounts := fun _ => 0 }

/-- Healer environment during a deploy window for the matched service. -/
def envDuringDeploy : HealerEnv :=
  { isDeploying := true, inspect := none, restartOk := true, now := 100000 }

/-- A healthy health_status event for container web-1 of project webproj. -/
def evHealthyWeb : Event :=
  { type := "container", action := "health_status: healthy",
    actor := { id := "cid1", attributes := fun k =>
      if k = "com.docker.compose.project" then "webproj"
      else if k = "name" then "web-1" else "" } }

/-- A start event for container web-1 of project webproj. -/
def evStartWeb : Event :=
  { type := "container", action := "start",
    actor := { id := "cid1", attributes := fun k =>
      if k = "com.docker.compose.project" then "webproj"
      else if k = "name" then "web-1" else "" } }

/-- Container inspect result whose health status is unhealthy with one log
entry. -/
def unhealthyInspect : ContainerInspect :=
  { id := "cid1", name := "/web-1", image := "sha256:imgid", state := { running := true, health := some { status := "unhealthy", log := [{ exitCode := 1, output := "probe failed" }] } } }

/-- Updater state with a blocked entry for service web. -/
def stBlockedWeb : UpdaterState :=
  { deploying := fun _ => none, notFound := fun _ => none,
    blocked := fun s => if s = "web" then some "sha256:bad" else none }

/-- Updater state with a notFound entry for service web. -/
def stNotFoundWeb : UpdaterState :=
  { deploying := fun _ => none, blocked := fun _ => none,
    notFound := fun s => if s = "web" then some "sha256:ccc" else none }

/-- Healer state in which service web has exhausted its restart budget. -/
def healerStMaxed : HealerState :=
  { cooldowns := fun _ => none, degraded := fun _ => false,
    restartCounts := fun s => if s = "web" then 3 else 0 }

/-- Healer environment outside any deploy window. -/
def envIdle : HealerEnv :=
  { isDeploying := false, inspect := none, restartOk := true, now := 0 }

/-! Theorems settling the claims. -/

/-- Claim C1: the claim states that when the Healer handles a healthy event
for a service while the Updater is deploying it, the recovery branch is
suppressed. The code has no such check: handleHealthy never consults the
updater, so with the deploying flag set in the environment the recovery
branch still runs, emitting the info Alert and the healthy gauge write.
This theorem evaluates the embedded code at such an input, exhibiting the
divergence between the code and the claim. -/
theorem handleHealthy_not_suppressed_during_deploy :
    envDuringDeploy.isDeploying = true ∧
    (handleEvent envDuringDeploy [svcWeb] healerStCooling evHealthyWeb).2.1 =
      [Effect.setHealthy "web" true,
       Effect.alert { service := "web", event := "healthy", message := "Container recovered and is healthy.", container := "web-1", level := Level.info }] := by
  constructor
  · rfl
  · decide

/-- Claim C2: the claim states that the ControlAPI serves GET /not-found
with the not-found suppression map. NewAPI registers only the six patterns
/trigger, /trigger/, /blocked, /blocked/, /health and /metrics, so the mux
resolves /not-found to no handler and the server answers 404. This theorem
evaluates the embedded route table at that request. -/
theorem no_not_found_route :
    muxResolve "/not-found" = none ∧
    apiStatus [] initUpdaterState "GET" "/not-found" = 404 := by
  constructor
  · decide
  · decide

/-- Claim C8 counterexample: a POST request to /health does not receive
status 405 as the claim states; handleHealth ignores the method and
responds 200. -/
theorem health_post_gets_200_not_405 :
    apiStatus [] initUpdaterState "POST" "/health" = 200 ∧
    apiStatus [] initUpdaterState "POST" "/health" ≠ 405 := by
  constructor
  · decide
  · decide

/-- Claim C8 amended: only the four trigger and blocked endpoints gate on
the HTTP method and answer 405 to a wrong method; handleHealth and
handleMetrics ignore the method and answer 200 to every method. -/
theorem method_gate_amended (services : List Service) (st : UpdaterState)
    (method path : String) (r : Route) (hmux : muxResolve path = some r) :
    ((r = Route.triggerAll ∨ r = Route.triggerService ∨ r = Route.listBlocked ∨
        r = Route.unblockService) → method ≠ routeMethod r →
      apiStatus services st method path = 405) ∧
    ((r = Route.health ∨ r = Route.metrics) →
      apiStatus services st method path = 200) := by
  constructor
  · intro hr hm
    unfold apiStatus
    rw [hmux]
    rcases hr with h | h | h | h <;> subst h <;> simp [routeMethod] at hm <;> simp [hm]
  · intro hr
    unfold apiStatus
    rw [hmux]
    rcases hr with h | h <;> subst h <;> rfl

/-- Claim C8 amended, witness: a DELETE on /trigger is answered 405 and a
POST on /metrics is answered 200. -/
theorem method_gate_amended_witness :
    (muxResolve "/trigger" = some Route.triggerAll ∧ ("DELETE" : String) ≠ routeMethod Route.triggerAll ∧
      apiStatus [] initUpdaterState "DELETE" "/trigger" = 405) ∧
    (muxResolve "/metrics" = some Route.metrics ∧
      apiStatus [] initUpdaterState "POST" "/metrics" = 200) := by
  refine ⟨⟨by decide, by decide, ?_⟩, ⟨by decide, ?_⟩⟩
  · exact (method_gate_amended [] initUpdaterState "DELETE" "/trigger" Route.triggerAll (by decide)).1
      (Or.inl rfl) (by decide)
  · exact (method_gate_amended [] initUpdaterState "POST" "/metrics" Route.metrics (by decide)).2
      (Or.inr rfl)

/-- Claim C10: handleEvent drops every event that matches no configured
service, and every event whose action is not prefixed by one of the two
health_status transitions and is not exactly die, with no state change and
no effects. -/
theorem handleEvent_drops_unmatched_and_unknown_actions :
    (∀ (env : HealerEnv) (services : List Service) (st : HealerState) (e : Event),
      findServiceByEvent services e = none →
      handleEvent env services st e = (st, [], false)) ∧
    (∀ (env : HealerEnv) (services : List Service) (st : HealerState) (e : Event)
        (svc : Service),
      findServiceByEvent services e = some svc →
      strIsPre "health_status: unhealthy" e.action = false →
      strIsPre "health_status: healthy" e.action = false →
      e.action ≠ "die" →
      handleEvent env services st e = (st, [], false)) := by
  constructor
  · intro env services st e h
    unfold handleEvent
    rw [h]
  · intro env services st e svc h h1 h2 h3
    unfold handleEvent
    rw [h]
    simp [h1, h2, h3]

/-- Claim C10, witness: a start event for a matched service is dropped with
no state change and no effects. -/
theorem handleEvent_drops_start_witness :
    findServiceByEvent [svcWeb] evStartWeb = some svcWeb ∧
    handleEvent envDuringDeploy [svcWeb] healerStCooling evStartWeb =
      (healerStCooling, [], false) := by
  refine ⟨by decide, ?_⟩
  exact handleEvent_drops_unmatched_and_unknown_actions.2 envDuringDeploy [svcWeb]
    healerStCooling evStartWeb svcWeb (by decide) (by decide) (by decide) (by decide)

/-- Claim C9: no healer handler ever deletes a cooldowns entry
(handleUnhealthy only adds or overwrites, the others leave the map alone);
handleHealthy decides recovery from key presence alone, independent of any
deadline or current instant, so a cooldown entry long expired still routes
a healthy event into the recovery branch; restart gating through inCooldown
does compare the current instant against the stored deadline. -/
theorem cooldown_persistence_and_presence_check :
    (∀ (env : HealerEnv) (st : HealerState) (svc : Service) (cn cid c : String),
      (st.cooldowns c).isSome = true →
      (((handleUnhealthy env st svc cn cid).1).cooldowns c).isSome = true) ∧
    (∀ (st : HealerState) (svc : Service) (cn c : String),
      ((handleHealthy st svc cn).1).cooldowns c = st.cooldowns c) ∧
    (∀ (b : Bool) (st : HealerState) (svc : Service) (cn c : String),
      ((handleDied b st svc cn).1).cooldowns c = st.cooldowns c) ∧
    (∀ (env : HealerEnv) (st : HealerState) (svc : Service) (cn cid reason c : String),
      ((verifyAfterRestart env st svc cn cid reason).1).cooldowns c = st.cooldowns c) ∧
    (∀ (st : HealerState) (svc : Service) (cn : String) (t : Nat),
      st.cooldowns cn = some t →
      (handleHealthy st svc cn).2 =
        [Effect.setHealthy svc.name true,
         Effect.alert { service := svc.name, event := "healthy", message := "Container recovered and is healthy.", container := cn, level := Level.info }]) ∧
    (∀ (st : HealerState) (now : Nat) (cn : String),
      inCooldown st now cn = true ↔ ∃ t, st.cooldowns cn = some t ∧ now < t) := by
  refine ⟨?_, ?_, ?_, ?_, ?_, ?_⟩
  · intro env st svc cn cid c h
    simp only [handleUnhealthy]
    split_ifs with h1 h2 h3 h4 h5
    all_goals simp_all
    by_cases hc : c = cn
    all_goals simp_all
  · intro st svc cn c
    simp only [handleHealthy]
    split_ifs <;> rfl
  · intro b st svc cn c
    simp only [handleDied]
    split_ifs <;> rfl
  · intro env st svc cn cid reason c
    unfold verifyAfterRestart
    cases env.inspect
    · rfl
    · simp only []
      split_ifs <;> rfl
  · intro st svc cn t h
    unfold handleHealthy
    simp [h]
  · intro st now cn
    unfold inCooldown
    cases h : st.cooldowns cn <;> simp

/-- Claim C9, witness: with an expired cooldown entry (deadline 5, current
instant 9) the healthy event still takes the recovery branch, while
inCooldown is false at instant 9 and true at instant 3. -/
theorem cooldown_presence_witness :
    healerStCooling.cooldowns "web-1" = some 100 ∧
    (handleHealthy healerStCooling svcWeb "web-1").2 =
      [Effect.setHealthy "web" true,
       Effect.alert { service := "web", event := "healthy", message := "Container recovered and is healthy.", container := "web-1", level := Level.info }] ∧
    inCooldown healerStCooling 100000 "web-1" = false ∧
    inCooldown healerStCooling 3 "web-1" = true := by
  refine ⟨by decide, ?_, ?_, ?_⟩
  · exact cooldown_persistence_and_presence_check.2.2.2.2.1 healerStCooling svcWeb "web-1" 100 (by decide)
  · have h := (cooldown_persistence_and_presence_check.2.2.2.2.2 healerStCooling 100000 "web-1")
    by_contra hc
    simp only [Bool.not_eq_false] at hc
    rcases h.mp hc with ⟨t, ht, hlt⟩
    have ht100 : t = 100 := by
      have heq := ht.symm.trans (show healerStCooling.cooldowns "web-1" = some 100 from by decide)
      exact Option.some_inj.mp heq
    omega
  · exact (cooldown_persistence_and_presence_check.2.2.2.2.2 healerStCooling 3 "web-1").mpr
      ⟨100, by decide, by omega⟩

/-- Claim C5: when the consecutive failed-restart count of a service has
reached healMaxRestarts, no healer handler emits a RestartContainer call,
and the unhealthy handler (outside a deploy window, with autoHeal on)
returns right after marking the service unhealthy and degraded: before the
cooldown check, with no cooldown write, no restart, and no alert. -/
theorem max_restarts_gate :
    (∀ (env : HealerEnv) (st : HealerState) (svc : Service) (cn cid : String),
      svc.healMaxRestarts ≤ st.restartCounts svc.name →
      ((handleUnhealthy env st svc cn cid).2.1.filter Effect.isRestartCall = [] ∧
       (env.isDeploying = false → svc.autoHeal = true →
         handleUnhealthy env st svc cn cid =
           ({ st with degraded := fun s => if s = svc.name then true else st.degraded s },
            [Effect.setHealthy svc.name false], false)))) ∧
    (∀ (st : HealerState) (svc : Service) (cn : String),
      (handleHealthy st svc cn).2.filter Effect.isRestartCall = []) ∧
    (∀ (b : Bool) (st : HealerState) (svc : Service) (cn : String),
      (handleDied b st svc cn).2.filter Effect.isRestartCall = []) ∧
    (∀ (env : HealerEnv) (st : HealerState) (svc : Service) (cn cid reason : String),
      (verifyAfterRestart env st svc cn cid reason).2.filter Effect.isRestartCall = []) := by
  refine ⟨?_, ?_, ?_, ?_⟩
  · intro env st svc cn cid hmax
    constructor
    · simp only [handleUnhealthy]
      split_ifs <;> simp_all [Effect.isRestartCall]
    · intro h1 h2
      simp only [handleUnhealthy, h1, h2]
      simp [hmax]
  · intro st svc cn
    simp only [handleHealthy]
    split_ifs <;> simp [Effect.isRestartCall]
  · intro b st svc cn
    simp only [handleDied]
    split_ifs <;> simp [Effect.isRestartCall]
  · intro env st svc cn cid reason
    simp only [verifyAfterRestart]
    cases env.inspect
    · simp [Effect.isRestartCall]
    · simp only []
      split_ifs <;> simp [Effect.isRestartCall]

/-- Claim C5, witness: with the count at the maximum of 3 the unhealthy
handler performs the early return carrying only the unhealthy gauge write. -/
theorem max_restarts_gate_witness :
    svcWeb.healMaxRestarts ≤ healerStMaxed.restartCounts "web" ∧
    handleUnhealthy envIdle healerStMaxed svcWeb "web-1" "cid1" =
      ({ healerStMaxed with degraded := fun s => if s = svcWeb.name then true else healerStMaxed.degraded s },
       [Effect.setHealthy svcWeb.name false], false) := by
  refine ⟨by decide, ?_⟩
  exact ((max_restarts_gate.1 envIdle healerStMaxed svcWeb "web-1" "cid1" (by decide)).2 rfl rfl)

/-- resolveStage never touches the blocked map. -/
theorem resolveStage_preserves_blocked (env : ResolveEnv) (st : UpdaterState)
    (acc : List Effect) (svc : Service) (remoteDigest regPre : String) :
    (resolveStage env st acc svc remoteDigest regPre).1.blocked = st.blocked := by
  simp only [resolveStage]
  split_ifs <;> rfl

/-- notFoundStage never touches the blocked map. -/
theorem notFoundStage_preserves_blocked (env : ResolveEnv) (st : UpdaterState)
    (acc : List Effect) (svc : Service) (remoteDigest regPre : String) :
    (notFoundStage env st acc svc remoteDigest regPre).1.blocked = st.blocked := by
  simp only [notFoundStage]
  split_ifs <;> simp [resolveStage_preserves_blocked]

/-- Claim C3: during verify-after-deploy an observed unhealthy status rolls
back immediately, before or after the grace deadline alike, with reason
equal to the last health-check log output; and every rollback writes
blocked[service] := newDigest, with the map write strictly before any
rolled_back alert in the effect order. -/
theorem unhealthy_rollback_immediate_and_block_order
    (info : ContainerInspect) (h : HealthState) (afterDeadline : Bool)
    (hh : info.state.health = some h) (hs : h.status = "unhealthy") :
    verifyStep (Obs.inspected info) afterDeadline =
      VerifyDecision.rollbackWith info.lastHealthOutput ∧
    (∀ (renv : RollbackEnv) (st : UpdaterState) (svc : Service)
       (oldD newD fullImage regPre reason : String),
      (rollback renv st svc oldD newD fullImage regPre reason).1.blocked svc.name = some newD ∧
      blockedSetBeforeRolledBack svc.name newD
        (rollback renv st svc oldD newD fullImage regPre reason).2 = true) := by
  constructor
  · simp only [verifyStep, hh, hs]
    simp
  · intro renv st svc oldD newD fullImage regPre reason
    constructor
    · simp only [rollback]
      split_ifs <;> simp [mapSet]
    · simp only [rollback]
      split_ifs <;> simp [blockedSetBeforeRolledBack]

/-- Claim C3, witness: a container inspect with unhealthy status and log
output probe failed rolls back with that reason before the deadline, and a
concrete rollback blocks the new digest. -/
theorem unhealthy_rollback_witness :
    unhealthyInspect.state.health =
      some { status := "unhealthy", log := [{ exitCode := 1, output := "probe failed" }] } ∧
    verifyStep (Obs.inspected unhealthyInspect) false =
      VerifyDecision.rollbackWith unhealthyInspect.lastHealthOutput ∧
    (rollback {} initUpdaterState svcWeb "sha256:aaa" "sha256:bbb" "localhost:5000/web:latest" "localhost:5000/web" "probe failed").1.blocked "web" = some "sha256:bbb" := by
  refine ⟨rfl, ?_, ?_⟩
  · exact (unhealthy_rollback_immediate_and_block_order unhealthyInspect
      { status := "unhealthy", log := [{ exitCode := 1, output := "probe failed" }] }
      false rfl rfl).1
  · exact ((unhealthy_rollback_immediate_and_block_order unhealthyInspect
      { status := "unhealthy", log := [{ exitCode := 1, output := "probe failed" }] }
      false rfl rfl).2 {} initUpdaterState svcWeb "sha256:aaa" "sha256:bbb"
      "localhost:5000/web:latest" "localhost:5000/web" "probe failed").1

/-- Claim C4: with a nonempty blocked entry for the service (every digest
the updater stores is nonempty because the registry client rejects an empty
Docker-Content-Digest header), checkAndUpdate returns silently with no map
change and no effects when the entry equals the remote digest; when it
differs, the entry and the blocked gauge are cleared first and processing
continues with the notFound consultation and digest comparison, the blocked
entry staying cleared. -/
theorem blocked_digest_gate (env : ResolveEnv) (regURL : String) (st : UpdaterState)
    (svc : Service) (remoteDigest d : String)
    (hb : st.blocked svc.name = some d) (hne : d ≠ "") :
    (d = remoteDigest → checkAndUpdate env regURL st svc remoteDigest = (st, [])) ∧
    (d ≠ remoteDigest →
      checkAndUpdate env regURL st svc remoteDigest =
        notFoundStage env { st with blocked := mapErase st.blocked svc.name }
          [Effect.blockedMapClear svc.name, Effect.setBlockedGauge svc.name false]
          svc remoteDigest (registryHost regURL ++ "/" ++ imageName svc.image) ∧
      (checkAndUpdate env regURL st svc remoteDigest).1.blocked svc.name = none) := by
  constructor
  · intro heq
    subst heq
    simp [checkAndUpdate, hb, hne]
  · intro hnem
    have heq : checkAndUpdate env regURL st svc remoteDigest =
        notFoundStage env { st with blocked := mapErase st.blocked svc.name }
          [Effect.blockedMapClear svc.name, Effect.setBlockedGauge svc.name false]
          svc remoteDigest (registryHost regURL ++ "/" ++ imageName svc.image) := by
      simp [checkAndUpdate, hb, hne, hnem]
    refine ⟨heq, ?_⟩
    rw [heq, notFoundStage_preserves_blocked]
    simp [mapErase]

/-- Claim C4, witness: a blocked entry equal to the remote digest skips the
poll silently, and one differing from the remote digest is cleared with the
gauge before processing continues. -/
theorem blocked_digest_gate_witness :
    stBlockedWeb.blocked "web" = some "sha256:bad" ∧ ("sha256:bad" : String) ≠ "" ∧
    checkAndUpdate {} "http://localhost:5000" stBlockedWeb svcWeb "sha256:bad" =
      (stBlockedWeb, []) ∧
    (checkAndUpdate {} "http://localhost:5000" stBlockedWeb svcWeb "sha256:new").1.blocked "web" = none := by
  refine ⟨by decide, by decide, ?_, ?_⟩
  · exact (blocked_digest_gate {} "http://localhost:5000" stBlockedWeb svcWeb
      "sha256:bad" "sha256:bad" rfl (by decide)).1 rfl
  · exact ((blocked_digest_gate {} "http://localhost:5000" stBlockedWeb svcWeb
      "sha256:new" "sha256:bad" rfl (by decide)).2 (by decide)).2

/-- Claim C6: when compose pull fails, or compose pull succeeds and compose
up fails, deploy clears the deploying entry, returns the error, spawns no
verification, and leaves the blocked and notFound maps untouched while
emitting no alert and no metric write: no rollback happens. -/
theorem deploy_failure_no_rollback (env : DeployEnv) (regURL : String)
    (st : UpdaterState) (svc : Service) (oldD newD : String) (now : Nat) (e : String)
    (hnd : st.deploying svc.name = none)
    (hfail : env.pullErr = some e ∨ (env.pullErr = none ∧ env.upErr = some e)) :
    (deploy env regURL st svc oldD newD now).1.deploying svc.name = none ∧
    (deploy env regURL st svc oldD newD now).1.blocked = st.blocked ∧
    (deploy env regURL st svc oldD newD now).1.notFound = st.notFound ∧
    (deploy env regURL st svc oldD newD now).2.2.1.isSome = true ∧
    (deploy env regURL st svc oldD newD now).2.2.2 = false ∧
    (deploy env regURL st svc oldD newD now).2.1.filter Effect.isAlert = [] ∧
    (deploy env regURL st svc oldD newD now).2.1.filter Effect.isMetricWrite = [] := by
  have hds : (st.deploying svc.name).isSome = false := by rw [hnd]; rfl
  rcases hfail with hp | ⟨hp, hu⟩
  · simp only [deploy, hds, Bool.false_eq_true, if_false, hp]
    refine ⟨by simp [mapErase], by trivial, by trivial, by trivial, by trivial, ?_, ?_⟩ <;>
      split_ifs <;> simp [Effect.isAlert, Effect.isMetricWrite]
  · simp only [deploy, hds, Bool.false_eq_true, if_false, hp, hu]
    refine ⟨by simp [mapErase], by trivial, by trivial, by trivial, by trivial, ?_, ?_⟩ <;>
      split_ifs <;> simp [Effect.isAlert, Effect.isMetricWrite]

/-- Claim C6, witness: a concrete failed compose pull clears the deploying
entry, returns an error and emits neither alerts nor metric writes. -/
theorem deploy_failure_witness :
    initUpdaterState.deploying "web" = none ∧
    (deploy { pullErr := some "boom" } "http://localhost:5000" initUpdaterState svcWeb
      "sha256:aaa" "sha256:bbb" 7).1.deploying "web" = none ∧
    (deploy { pullErr := some "boom" } "http://localhost:5000" initUpdaterState svcWeb
      "sha256:aaa" "sha256:bbb" 7).2.1.filter Effect.isAlert = [] := by
  have h := deploy_failure_no_rollback { pullErr := some "boom" } "http://localhost:5000"
    initUpdaterState svcWeb "sha256:aaa" "sha256:bbb" 7 "boom" rfl (Or.inl rfl)
  exact ⟨rfl, h.1, h.2.2.2.2.2.1⟩

/-- Claim C7: when neither local digest resolution strategy yields a digest
(and neither suppression map short-circuits the poll), checkAndUpdate
records notFound[service] := remoteDigest and emits exactly one warning
alert with event not_found, without deploying; on later polls a matching
notFound entry skips silently, and a differing one is cleared before
processing continues with resolution and comparison. -/
theorem not_found_suppression (env : ResolveEnv) (regURL : String) (st : UpdaterState)
    (svc : Service) (remoteDigest : String)
    (hb : (st.blocked svc.name).getD "" = "") :
    ((st.notFound svc.name).getD "" = "" →
      resolveLocalDigest env (registryHost regURL ++ "/" ++ imageName svc.image) = "" →
      checkAndUpdate env regURL st svc remoteDigest =
        ({ st with notFound := mapSet st.notFound svc.name remoteDigest },
         [Effect.notFoundMapSet svc.name remoteDigest, Effect.alert (notFoundAlert svc.name)]) ∧
      (checkAndUpdate env regURL st svc remoteDigest).2.filter Effect.isAlert =
        [Effect.alert (notFoundAlert svc.name)]) ∧
    (∀ d, st.notFound svc.name = some d → d ≠ "" → d = remoteDigest →
      checkAndUpdate env regURL st svc remoteDigest = (st, [])) ∧
    (∀ d, st.notFound svc.name = some d → d ≠ "" → d ≠ remoteDigest →
      checkAndUpdate env regURL st svc remoteDigest =
        resolveStage env { st with notFound := mapErase st.notFound svc.name }
          [Effect.notFoundMapClear svc.name] svc remoteDigest
          (registryHost regURL ++ "/" ++ imageName svc.image)) := by
  refine ⟨?_, ?_, ?_⟩
  · intro hnf hres
    have heq : checkAndUpdate env regURL st svc remoteDigest =
        ({ st with notFound := mapSet st.notFound svc.name remoteDigest },
         [Effect.notFoundMapSet svc.name remoteDigest, Effect.alert (notFoundAlert svc.name)]) := by
      simp [checkAndUpdate, notFoundStage, resolveStage, hb, hnf, hres]
    refine ⟨heq, ?_⟩
    rw [heq]
    simp [Effect.isAlert]
  · intro d hd hdne hdeq
    subst hdeq
    simp [checkAndUpdate, notFoundStage, hb, hd, hdne]
  · intro d hd hdne hdnem
    simp [checkAndUpdate, notFoundStage, hb, hd, hdne, hdnem]

/-- Claim C7, witness: with empty maps and both resolution strategies
failing, a concrete poll records the suppression and alerts once; a later
poll with the same remote digest is silent. -/
theorem not_found_suppression_witness :
    (initUpdaterState.blocked "web").getD "" = "" ∧
    resolveLocalDigest {} (registryHost "http://localhost:5000" ++ "/" ++ imageName svcWeb.image) = "" ∧
    (checkAndUpdate {} "http://localhost:5000" initUpdaterState svcWeb "sha256:ccc").2.filter
      Effect.isAlert = [Effect.alert (notFoundAlert "web")] ∧
    checkAndUpdate {} "http://localhost:5000" stNotFoundWeb svcWeb "sha256:ccc" =
      (stNotFoundWeb, []) := by
  refine ⟨by decide, by decide, ?_, ?_⟩
  · exact ((not_found_suppression {} "http://localhost:5000" initUpdaterState svcWeb
      "sha256:ccc" rfl).1 rfl (by decide)).2
  · exact (not_found_suppression {} "http://localhost:5000" stNotFoundWeb svcWeb
      "sha256:ccc" rfl).2.1 "sha256:ccc" rfl (by decide) rfl

end Dockward
